import Mathlib

/-!
Shallow embedding of `photutils/psf/image_models.py` (`FittableImageModel`,
`EPSFModel`) and the border-size resolution of
`photutils/psf/simulation.py` (`make_psf_model_image`).

Modelling conventions:
* Python floats are modelled by `ℚ` (exact arithmetic; `np.isfinite` is
  always true on `ℚ`, so the `isfinite` guards of the source reduce to the
  nonzero checks that accompany them).
* The image grid is a `List (List ℚ)` (ny rows of nx columns).
* The spline interpolator (`scipy.interpolate.RectBivariateSpline`) is an
  external black box: a model carries an `interpolator : ℚ → ℚ → ℚ` field,
  produced by an abstract `Builder` that receives the (possibly normalized)
  grid data and the per-axis coordinate divisors used for the spline knots
  (`(1, 1)` for `FittableImageModel`, the oversampling pair for `EPSFModel`).
* The exact circular-aperture integrator (`CircularAperture.do_photometry`
  with `method='exact'`) is an abstract `Aper` function taking the grid, the
  aperture center and the radius.
* Warnings (`warnings.warn`) are counted in `warnCount`; each invocation of
  the raw-flux computation (`_compute_raw_image_norm`: the grid sum for
  `FittableImageModel`, the aperture integration for `EPSFModel`) is counted
  in `rawNormCount`, so that claims about caching/re-summing are statable.
* Fallible constructors return `Except String`.
-/

/-- Normalization status: `_normalization_status` values 0 / 1 / 2. -/
inductive NormStatus where
  | performed
  | failed
  | notRequested
  deriving DecidableEq, Repr

/-- Integer code of a normalization status, as stored by the source. -/
def NormStatus.code : NormStatus → ℕ
  | .performed => 0
  | .failed => 1
  | .notRequested => 2

/-- Abstract surface builder: grid data and per-axis knot divisors to a
surface. Stands for `RectBivariateSpline` over
`np.arange(n)/divisor` knots (`FittableImageModel.compute_interpolator`
uses divisor 1; `EPSFModel.compute_interpolator` divides by oversampling). -/
def Builder : Type := List (List ℚ) → ℕ × ℕ → ℚ → ℚ → ℚ

/-- Abstract exact-aperture integrator:
`CircularAperture(center, r=radius).do_photometry(data, method='exact')`. -/
def Aper : Type := List (List ℚ) → ℚ × ℚ → ℚ → ℚ

/-- The observable state of a `FittableImageModel` / `EPSFModel` instance. -/
structure ModelState where
  /-- `_data`: the stored sample grid, ny rows of nx columns. -/
  data : List (List ℚ)
  /-- `_nx`: number of columns. -/
  nx : ℕ
  /-- `_ny`: number of rows. -/
  ny : ℕ
  /-- the `flux` model parameter. -/
  flux : ℚ
  /-- the `x_0` model parameter. -/
  x0 : ℚ
  /-- the `y_0` model parameter. -/
  y0 : ℚ
  /-- `_normalization_correction`. -/
  normCorrection : ℚ
  /-- `_normalization_constant`. -/
  normConstant : ℚ
  /-- `_img_norm`: the cached raw flux (`None` when not yet computed). -/
  imgNorm : Option ℚ
  /-- `_normalization_status`. -/
  normStatus : NormStatus
  /-- `_oversampling` as (oy, ox). -/
  oversampling : ℕ × ℕ
  /-- `_x_origin`. -/
  xOrigin : ℚ
  /-- `_y_origin`. -/
  yOrigin : ℚ
  /-- `_fill_value` (`none` is the pass-through sentinel `None`). -/
  fillValue : Option ℚ
  /-- `_norm_radius` (`EPSFModel` only; unused by `FittableImageModel`). -/
  normRadius : ℚ
  /-- the built spline surface (`self.interpolator`). -/
  interpolator : ℚ → ℚ → ℚ
  /-- instrumentation: number of `_compute_raw_image_norm` invocations. -/
  rawNormCount : ℕ
  /-- instrumentation: number of warnings emitted. -/
  warnCount : ℕ

instance : Inhabited ModelState :=
  ⟨{ data := [], nx := 0, ny := 0, flux := 0, x0 := 0, y0 := 0,
     normCorrection := 1, normConstant := 1, imgNorm := none,
     normStatus := .notRequested, oversampling := (1, 1), xOrigin := 0,
     yOrigin := 0, fillValue := none, normRadius := 0,
     interpolator := fun _ _ => 0, rawNormCount := 0, warnCount := 0 }⟩

/-- Sum of all grid entries: `np.sum(self._data, dtype=float)`. -/
def gridSum (d : List (List ℚ)) : ℚ :=
  (d.map (fun row => row.sum)).sum

/-- Multiply every grid entry by `c` (used for the in-place `/=` of the
source as multiplication by the inverse factor). -/
def scaleData (c : ℚ) (d : List (List ℚ)) : List (List ℚ) :=
  d.map (fun row => row.map (fun v => c * v))

/-- `FittableImageModel._compute_raw_image_norm`: the sum of all pixels. -/
def computeRawImageNorm (s : ModelState) : ℚ :=
  gridSum s.data

/-- `FittableImageModel._compute_normalization(normalize)`.
The source first sets `_normalization_constant = 1/_normalization_correction`
unconditionally; if `normalize`, the raw flux is taken from the cache
`_img_norm` (computing and caching it only when the cache is `None`), then
either the constant is divided by it (status Performed) or, when the raw
flux is zero (non-finite cannot occur over `ℚ`), the constant falls back to
`1.0` with status Failed and a warning. Otherwise status NotRequested. -/
def computeNormalization (normalize : Bool) (s : ModelState) : ModelState :=
  let s0 := { s with normConstant := 1 / s.normCorrection }
  if normalize then
    let p : ℚ × ModelState :=
      match s0.imgNorm with
      | some v => (v, s0)
      | none =>
        let v := computeRawImageNorm s0
        (v, { s0 with imgNorm := some v, rawNormCount := s0.rawNormCount + 1 })
    if p.1 ≠ 0 then
      { p.2 with normConstant := p.2.normConstant / p.1,
                 normStatus := .performed }
    else
      { p.2 with normConstant := 1, normStatus := .failed,
                 warnCount := p.2.warnCount + 1 }
  else
    { s0 with normStatus := .notRequested }

/-- `FittableImageModel.normalized_data`: `_normalization_constant * _data`. -/
def fimNormalizedData (s : ModelState) : List (List ℚ) :=
  scaleData s.normConstant s.data

/-- `FittableImageModel.normalization_correction` setter: store the new
factor, rerun `_compute_normalization(normalize = status != 2)`, then
`flux *= new_correction / old_correction`. -/
def fimSetNormCorrection (newC : ℚ) (s : ModelState) : ModelState :=
  let oldC := s.normCorrection
  let s1 := { s with normCorrection := newC }
  let s2 := computeNormalization
    (decide (s1.normStatus ≠ NormStatus.notRequested)) s1
  { s2 with flux := s2.flux * (newC / oldC) }

/-- `FittableImageModel.evaluate` coordinate transform: multiply
`x - x_0` by the per-axis oversampling factor when `use_oversampling`,
then add the origin (`ov` is the relevant axis factor, `orig` the
relevant origin coordinate). -/
def fimTransform (useOversampling : Bool) (ov : ℕ) (orig x x0 : ℚ) : ℚ :=
  (if useOversampling then (ov : ℚ) * (x - x0) else x - x0) + orig

/-- `FittableImageModel.evaluate(x, y, flux, x_0, y_0, use_oversampling)`:
transform the coordinates, scale the surface value by
`flux * _normalization_constant`, and overwrite points whose transformed
index falls outside `[0, nx-1] × [0, ny-1]` with the fill value unless the
fill value is the pass-through sentinel. -/
def fimEvaluate (s : ModelState) (x y flux x0 y0 : ℚ)
    (useOversampling : Bool) : ℚ :=
  let xi := fimTransform useOversampling s.oversampling.2 s.xOrigin x x0
  let yi := fimTransform useOversampling s.oversampling.1 s.yOrigin y y0
  let f := flux * s.normConstant
  let v := f * s.interpolator xi yi
  match s.fillValue with
  | none => v
  | some fv =>
    if xi < 0 ∨ xi > (s.nx : ℚ) - 1 ∨ yi < 0 ∨ yi > (s.ny : ℚ) - 1 then fv
    else v

/-- `FittableImageModel._initial_norm(flux, normalize)`: when `flux` is
`None`, compute and cache the raw flux and use it as the flux value; then
run `_compute_normalization(normalize)`. Returns the resolved flux and the
updated state. -/
def fimInitialNorm (flux : Option ℚ) (normalize : Bool) (s : ModelState) :
    ℚ × ModelState :=
  let p : ℚ × ModelState :=
    match flux with
    | some f => (f, s)
    | none =>
      match s.imgNorm with
      | some v => (v, s)
      | none =>
        let v := computeRawImageNorm s
        (v, { s with imgNorm := some v, rawNormCount := s.rawNormCount + 1 })
  (p.1, computeNormalization normalize p.2)

/-- `FittableImageModel.__init__`. Mirrors the source order: oversampling
validation (`as_pair` with positive lower bound), strict positivity of the
correction factor, grid shape checks (a ragged nested list is rejected by
`np.array` itself; an empty array by the explicit size check), origin
resolution (default `((nx-1)/2, (ny-1)/2)`), `_initial_norm`, then the
interpolator build over unit-divisor knots. The finiteness check on the
data is vacuous over `ℚ`. -/
def fimInit (builder : Builder) (data : List (List ℚ)) (flux : Option ℚ)
    (x0 y0 : ℚ) (normalize : Bool) (normCorrection : ℚ)
    (origin : Option (ℚ × ℚ)) (oversampling : ℕ × ℕ)
    (fillValue : Option ℚ) : Except String ModelState :=
  if oversampling.1 < 1 ∨ oversampling.2 < 1 then
    .error "oversampling must be a positive integer"
  else if normCorrection ≤ 0 then
    .error "normalization_correction must be strictly positive."
  else
    let ny := data.length
    let nx := (data.headD []).length
    if data.any (fun row => row.length != nx) then
      .error "data must be a 2D array"
    else if ny * nx < 1 then
      .error "Image data array cannot be zero-sized."
    else
      let xOrigin := match origin with
        | none => ((nx : ℚ) - 1) / 2
        | some o => o.1
      let yOrigin := match origin with
        | none => ((ny : ℚ) - 1) / 2
        | some o => o.2
      let s0 : ModelState :=
        { data := data, nx := nx, ny := ny, flux := 0, x0 := x0, y0 := y0,
          normCorrection := normCorrection,
          normConstant := 1 / normCorrection, imgNorm := none,
          normStatus := if normalize then .performed else .notRequested,
          oversampling := oversampling, xOrigin := xOrigin,
          yOrigin := yOrigin, fillValue := fillValue, normRadius := 0,
          interpolator := fun _ _ => 0, rawNormCount := 0, warnCount := 0 }
      let p := fimInitialNorm flux normalize s0
      let s1 := { p.2 with flux := p.1 }
      .ok { s1 with interpolator := builder s1.data (1, 1) }

/-- `EPSFModel._compute_raw_image_norm`: exact aperture flux of the grid
inside a circle of radius `norm_radius * oversampling[0]` centered at
`(nx/2, ny/2)`, divided by the product of the oversampling factors. -/
def epsfComputeRawImageNorm (aper : Aper) (s : ModelState) : ℚ :=
  aper s.data ((s.nx : ℚ) / 2, (s.ny : ℚ) / 2)
    (s.normRadius * (s.oversampling.1 : ℚ))
    / ((s.oversampling.1 : ℚ) * (s.oversampling.2 : ℚ))

/-- `EPSFModel._compute_normalization(normalize)`: when normalizing, the
raw flux is taken from the cache; on a cache miss a grid that sums to zero
short-circuits the raw flux to `1`, otherwise the aperture flux is computed
and cached. A nonzero raw flux (non-finite cannot occur over `ℚ`) divides
the stored grid in place by `raw_flux * correction` with status Performed;
a zero raw flux sets status Failed, resets the cache to `1` and warns.
The derived constant `_normalization_constant` is never touched. -/
def epsfComputeNormalization (aper : Aper) (normalize : Bool)
    (s : ModelState) : ModelState :=
  if normalize then
    let p : ℚ × ModelState :=
      match s.imgNorm with
      | some v => (v, s)
      | none =>
        if gridSum s.data = 0 then (1, { s with imgNorm := some 1 })
        else
          let v := epsfComputeRawImageNorm aper s
          (v, { s with imgNorm := some v, rawNormCount := s.rawNormCount + 1 })
    if p.1 ≠ 0 then
      { p.2 with data := scaleData (1 / (p.1 * p.2.normCorrection)) p.2.data,
                 normStatus := .performed }
    else
      { p.2 with normStatus := .failed, imgNorm := some 1,
                 warnCount := p.2.warnCount + 1 }
  else
    { s with normStatus := .notRequested }

/-- `EPSFModel.normalized_data`: returns the stored grid unchanged. -/
def epsfNormalizedData (s : ModelState) : List (List ℚ) :=
  s.data

/-- The `normalization_correction` setter as inherited by `EPSFModel`:
identical to `FittableImageModel`'s, but dynamic dispatch reaches
`EPSFModel._compute_normalization`. -/
def epsfSetNormCorrection (aper : Aper) (newC : ℚ) (s : ModelState) :
    ModelState :=
  let oldC := s.normCorrection
  let s1 := { s with normCorrection := newC }
  let s2 := epsfComputeNormalization aper
    (decide (s1.normStatus ≠ NormStatus.notRequested)) s1
  { s2 with flux := s2.flux * (newC / oldC) }

/-- `EPSFModel._initial_norm(flux, normalize)`: resolve a `None` flux from
the cached raw flux; when normalizing run `_compute_normalization`,
otherwise unconditionally (re)compute and store the raw flux. -/
def epsfInitialNorm (aper : Aper) (flux : Option ℚ) (normalize : Bool)
    (s : ModelState) : ℚ × ModelState :=
  let p : ℚ × ModelState :=
    match flux with
    | some f => (f, s)
    | none =>
      match s.imgNorm with
      | some v => (v, s)
      | none =>
        let v := epsfComputeRawImageNorm aper s
        (v, { s with imgNorm := some v, rawNormCount := s.rawNormCount + 1 })
  if normalize then
    (p.1, epsfComputeNormalization aper true p.2)
  else
    (p.1, { p.2 with imgNorm := some (epsfComputeRawImageNorm aper p.2),
                     rawNormCount := p.2.rawNormCount + 1 })

/-- `EPSFModel.__init__`: stores `norm_radius` then follows the parent
constructor, with the overridden `_initial_norm`, the origin default
divided per axis by the oversampling factors, and the interpolator built
over knots divided by the oversampling factors. -/
def epsfInit (builder : Builder) (aper : Aper) (data : List (List ℚ))
    (flux : Option ℚ) (x0 y0 : ℚ) (normalize : Bool) (normCorrection : ℚ)
    (origin : Option (ℚ × ℚ)) (oversampling : ℕ × ℕ) (fillValue : Option ℚ)
    (normRadius : ℚ) : Except String ModelState :=
  if oversampling.1 < 1 ∨ oversampling.2 < 1 then
    .error "oversampling must be a positive integer"
  else if normCorrection ≤ 0 then
    .error "normalization_correction must be strictly positive."
  else
    let ny := data.length
    let nx := (data.headD []).length
    if data.any (fun row => row.length != nx) then
      .error "data must be a 2D array"
    else if ny * nx < 1 then
      .error "Image data array cannot be zero-sized."
    else
      let xOrigin := match origin with
        | none => ((nx : ℚ) - 1) / 2 / (oversampling.2 : ℚ)
        | some o => o.1
      let yOrigin := match origin with
        | none => ((ny : ℚ) - 1) / 2 / (oversampling.1 : ℚ)
        | some o => o.2
      let s0 : ModelState :=
        { data := data, nx := nx, ny := ny, flux := 0, x0 := x0, y0 := y0,
          normCorrection := normCorrection,
          normConstant := 1 / normCorrection, imgNorm := none,
          normStatus := if normalize then .performed else .notRequested,
          oversampling := oversampling, xOrigin := xOrigin,
          yOrigin := yOrigin, fillValue := fillValue,
          normRadius := normRadius, interpolator := fun _ _ => 0,
          rawNormCount := 0, warnCount := 0 }
      let p := epsfInitialNorm aper flux normalize s0
      let s1 := { p.2 with flux := p.1 }
      .ok { s1 with interpolator := builder s1.data s1.oversampling }

/-- `EPSFModel.evaluate(x, y, flux, x_0, y_0)`: no oversampling rescale,
value `flux * surface(xi, yi)` with no normalization constant, fill-domain
bounds `[0, (nx-1)/ox] × [0, (ny-1)/oy]`. -/
def epsfEvaluate (s : ModelState) (x y flux x0 y0 : ℚ) : ℚ :=
  let xi := x - x0 + s.xOrigin
  let yi := y - y0 + s.yOrigin
  let v := flux * s.interpolator xi yi
  match s.fillValue with
  | none => v
  | some fv =>
    if xi < 0 ∨ xi > ((s.nx : ℚ) - 1) / (s.oversampling.2 : ℚ)
        ∨ yi < 0 ∨ yi > ((s.ny : ℚ) - 1) / (s.oversampling.1 : ℚ) then fv
    else v

/-- `make_psf_model_image` border resolution: an explicit `border_size` is
used as given; otherwise it defaults per axis to
`(model_shape - 1) // 2`. -/
def resolveBorderSize (borderSize : Option (ℕ × ℕ)) (modelShape : ℕ × ℕ) :
    ℕ × ℕ :=
  match borderSize with
  | some b => b
  | none => ((modelShape.1 - 1) / 2, (modelShape.2 - 1) / 2)

/-- Modelled from the spec: `make_model_params` (from
`photutils.datasets`, not part of the sources here) draws candidate source
positions and rejects any candidate whose center falls inside the border
margin, i.e. a center is allowed only when each coordinate is at least the
border size away from the corresponding image edge. `shape` and `border`
are in `(ny, nx)` order, the position in `(x, y)` order. -/
def borderAllowsCenter (shape border : ℕ × ℕ) (pos : ℚ × ℚ) : Bool :=
  decide ((border.2 : ℚ) ≤ pos.1) &&
  decide (pos.1 ≤ (shape.2 : ℚ) - 1 - (border.2 : ℚ)) &&
  decide ((border.1 : ℚ) ≤ pos.2) &&
  decide (pos.2 ≤ (shape.1 : ℚ) - 1 - (border.1 : ℚ))

/-- A concrete surface builder for test instances. -/
def testBuilder : Builder := fun d _ _ _ => gridSum d

/-- A concrete aperture integrator for test instances: the aperture covers
the whole grid. -/
def testAper : Aper := fun d _ _ => gridSum d

/-- All-zero ny × nx grid. -/
def zeroGrid (ny nx : ℕ) : List (List ℚ) :=
  List.replicate ny (List.replicate nx 0)

/-- Concrete `EPSFModel` built from the 1×1 grid `[[4]]` with
`normalize=True`, unit correction and unit oversampling. -/
def epsfNormModel : ModelState :=
  match epsfInit testBuilder testAper [[4]] (some 1) 0 0 true 1 none (1, 1)
      (some 0) (11 / 2) with
  | .ok s => s
  | .error _ => default

/-- Concrete `EPSFModel` built from `[[4]]` with `normalize=False`. -/
def epsfPlainModel : ModelState :=
  match epsfInit testBuilder testAper [[4]] (some 1) 0 0 false 1 none (1, 1)
      (some 0) (11 / 2) with
  | .ok s => s
  | .error _ => default

/-- Concrete `FittableImageModel` built from `[[2]]` with
`normalize=False`. -/
def fimPlainModel : ModelState :=
  match fimInit testBuilder [[2]] (some 1) 0 0 false 1 none (1, 1)
      (some 0) with
  | .ok s => s
  | .error _ => default

/-- Concrete `FittableImageModel` built from `[[2]]` with
`normalize=True`. -/
def fimNormModel : ModelState :=
  match fimInit testBuilder [[2]] (some 1) 0 0 true 1 none (1, 1)
      (some 0) with
  | .ok s => s
  | .error _ => default

/-- Concrete `EPSFModel` built from the all-zero grid `[[0]]` with
`normalize=True`. -/
def epsfZerosModel : ModelState :=
  match epsfInit testBuilder testAper [[0]] (some 1) 0 0 true 1 none (1, 1)
      (some 0) (11 / 2) with
  | .ok s => s
  | .error _ => default

/-- A concrete model state with a cached raw flux, as left by a successful
normalization at construction. -/
def cachedState : ModelState :=
  { data := [[2]], nx := 1, ny := 1, flux := 1, x0 := 0, y0 := 0,
    normCorrection := 1, normConstant := 1, imgNorm := some 2,
    normStatus := .performed, oversampling := (2, 3), xOrigin := 1,
    yOrigin := 1, fillValue := some 0, normRadius := 2,
    interpolator := fun _ _ => 1, rawNormCount := 1, warnCount := 0 }

/-- A concrete model state whose raw flux has not been computed yet. -/
def uncachedState : ModelState :=
  { data := [[2]], nx := 1, ny := 1, flux := 1, x0 := 0, y0 := 0,
    normCorrection := 1, normConstant := 1, imgNorm := none,
    normStatus := .notRequested, oversampling := (1, 1), xOrigin := 0,
    yOrigin := 0, fillValue := some 0, normRadius := 2,
    interpolator := fun _ _ => 1, rawNormCount := 0, warnCount := 0 }

/-- Concrete `EPSFModel` built from `[[4]]` with `normalize=False` and
correction factor 2 (differs from `epsfPlainModel` only in the correction
factor). -/
def epsfPlainModel2 : ModelState :=
  match epsfInit testBuilder testAper [[4]] (some 1) 0 0 false 2 none (1, 1)
      (some 0) (11 / 2) with
  | .ok s => s
  | .error _ => default

theorem gridSum_zeroGrid (ny nx : ℕ) : gridSum (zeroGrid ny nx) = 0 := by
  simp [gridSum, zeroGrid, List.sum_replicate]

theorem scaleData_zeroGrid (c : ℚ) (ny nx : ℕ) :
    scaleData c (zeroGrid ny nx) = zeroGrid ny nx := by
  simp [scaleData, zeroGrid, List.map_replicate]

/-- C2: In the aperture-normalized variant (`EPSFModel`), when
normalization is requested and the (cached or freshly computed) raw flux is
nonzero, the stored grid itself is divided in place by
`raw_flux * normalization_correction`, and `normalized_data` returns the
stored grid unchanged; in the default variant (`FittableImageModel`) the
stored grid is never modified by the normalization computation and
`normalized_data` returns the grid multiplied by the normalization
constant. -/
theorem c2_eager_vs_lazy_normalization (aper : Aper) (s t u : ModelState)
    (v : ℚ) (hv : s.imgNorm = some v) (hvz : v ≠ 0)
    (hnone : t.imgNorm = none) (hgs : gridSum t.data ≠ 0)
    (hra : epsfComputeRawImageNorm aper t ≠ 0) :
    (epsfComputeNormalization aper true s).data
      = scaleData (1 / (v * s.normCorrection)) s.data ∧
    (epsfComputeNormalization aper true t).data
      = scaleData (1 / (epsfComputeRawImageNorm aper t * t.normCorrection))
          t.data ∧
    (∀ w : ModelState, epsfNormalizedData w = w.data) ∧
    (∀ b : Bool, (computeNormalization b u).data = u.data) ∧
    (∀ w : ModelState, fimNormalizedData w = scaleData w.normConstant w.data)
    := by
  refine ⟨?_, ?_, fun w => rfl, ?_, fun w => rfl⟩
  · simp [epsfComputeNormalization, hv, hvz]
  · simp [epsfComputeNormalization, hnone, hgs, hra]
  · intro b
    cases b <;> cases hu : u.imgNorm <;>
      simp [computeNormalization, hu] <;> split <;> rfl

/-- C2 witness: the hypotheses and conclusion at a concrete instance. -/
theorem c2_witness :
    (epsfComputeNormalization testAper true cachedState).data
      = scaleData (1 / (2 * cachedState.normCorrection)) cachedState.data ∧
    fimNormalizedData cachedState
      = scaleData cachedState.normConstant cachedState.data := by
  have h := c2_eager_vs_lazy_normalization testAper cachedState
    uncachedState cachedState 2 rfl two_ne_zero rfl
    (by simp [gridSum, uncachedState])
    (by simp [epsfComputeRawImageNorm, testAper, gridSum, uncachedState])
  exact ⟨h.1, h.2.2.2.2 cachedState⟩

/-- C7: the `EPSFModel` raw flux is the exact-aperture flux of the stored
grid inside a circle of radius `norm_radius * oversampling[0]` — the
radius is scaled by the y-axis factor only, also when the x-axis factor
differs — centered on the grid midpoint `(nx/2, ny/2)`, divided by the
product of the per-axis oversampling factors. -/
theorem c7_aperture_raw_flux (aper : Aper) (s : ModelState) (ox : ℕ) :
    epsfComputeRawImageNorm aper s
      = aper s.data ((s.nx : ℚ) / 2, (s.ny : ℚ) / 2)
          (s.normRadius * (s.oversampling.1 : ℚ))
        / ((s.oversampling.1 : ℚ) * (s.oversampling.2 : ℚ)) ∧
    epsfComputeRawImageNorm aper { s with oversampling := (s.oversampling.1, ox) }
      = aper s.data ((s.nx : ℚ) / 2, (s.ny : ℚ) / 2)
          (s.normRadius * (s.oversampling.1 : ℚ))
        / ((s.oversampling.1 : ℚ) * (ox : ℚ)) :=
  ⟨rfl, rfl⟩

/-- C8 counterexample: for an even patch size the default border is not
half the patch shape rounded — for `model_shape = (4, 4)` the code yields
`(4 - 1) // 2 = 1` per axis, not `round(4 / 2) = 2`. -/
theorem c8_counterexample : resolveBorderSize none (4, 4) ≠ (2, 2) := by
  decide

/-- C8 amended: when `border_size` is not given it defaults per axis to
`(model_shape - 1) // 2` (half of the patch size minus one, rounded down),
an explicit `border_size` passes through unchanged, and (spec-modelled
placement) a candidate whose center coordinate lies strictly inside the
border margin is disallowed. -/
theorem c8_border_default (my mx : ℕ) (shape border : ℕ × ℕ)
    (pos : ℚ × ℚ) (hx : pos.1 < (border.2 : ℚ)) :
    resolveBorderSize none (my, mx) = ((my - 1) / 2, (mx - 1) / 2) ∧
    (∀ b : ℕ × ℕ, resolveBorderSize (some b) (my, mx) = b) ∧
    borderAllowsCenter shape border pos = false := by
  refine ⟨rfl, fun b => rfl, ?_⟩
  simp [borderAllowsCenter, not_le.mpr hx]

/-- C8 witness: the amended claim at `model_shape = (5, 4)`, a border of
`(2, 2)` and a center at `x = 1` inside the margin. -/
theorem c8_witness :
    resolveBorderSize none (5, 4) = ((5 - 1) / 2, (4 - 1) / 2) ∧
    borderAllowsCenter (10, 10) (2, 2) (1, 5) = false := by
  have h := c8_border_default 5 4 (10, 10) (2, 2) (1, 5) (by norm_num)
  exact ⟨h.1, h.2.2⟩

/-- C5: `FittableImageModel.evaluate` maps output coordinates to grid
indices as `xi = ox*(x - x_0) + x_origin`, `yi = oy*(y - y_0) + y_origin`
when `use_oversampling=True` and with unit factors when
`use_oversampling=False`, and for in-domain points returns
`flux * normalization_constant * surface(xi, yi)`. -/
theorem c5_oversampling_transform (s : ModelState) (x y fl x0 y0 : ℚ) :
    (fimTransform true s.oversampling.2 s.xOrigin x x0
      = (s.oversampling.2 : ℚ) * (x - x0) + s.xOrigin) ∧
    (fimTransform true s.oversampling.1 s.yOrigin y y0
      = (s.oversampling.1 : ℚ) * (y - y0) + s.yOrigin) ∧
    (fimTransform false s.oversampling.2 s.xOrigin x x0
      = 1 * (x - x0) + s.xOrigin) ∧
    (fimTransform false s.oversampling.1 s.yOrigin y y0
      = 1 * (y - y0) + s.yOrigin) ∧
    (∀ useOv : Bool,
      0 ≤ fimTransform useOv s.oversampling.2 s.xOrigin x x0 →
      fimTransform useOv s.oversampling.2 s.xOrigin x x0 ≤ (s.nx : ℚ) - 1 →
      0 ≤ fimTransform useOv s.oversampling.1 s.yOrigin y y0 →
      fimTransform useOv s.oversampling.1 s.yOrigin y y0 ≤ (s.ny : ℚ) - 1 →
      fimEvaluate s x y fl x0 y0 useOv
        = fl * s.normConstant
            * s.interpolator
                (fimTransform useOv s.oversampling.2 s.xOrigin x x0)
                (fimTransform useOv s.oversampling.1 s.yOrigin y y0)) := by
  refine ⟨rfl, rfl, by simp [fimTransform], by simp [fimTransform],
    fun useOv h1 h2 h3 h4 => ?_⟩
  unfold fimEvaluate
  cases hf : s.fillValue with
  | none => rfl
  | some fv =>
    simp only
    rw [if_neg]
    simp only [not_or, not_lt]
    exact ⟨h1, h2, h3, h4⟩

/-- A concrete model state for evaluation tests: 4×4 grid footprint,
origin at zero, oversampling `(oy, ox) = (1, 2)`, fill value 7. -/
def evalState : ModelState :=
  { data := [[1, 1], [1, 1]], nx := 4, ny := 4, flux := 1, x0 := 0, y0 := 0,
    normCorrection := 1, normConstant := 1, imgNorm := some 4,
    normStatus := .performed, oversampling := (1, 2), xOrigin := 0,
    yOrigin := 0, fillValue := some 7, normRadius := 2,
    interpolator := fun a b => a + b, rawNormCount := 1, warnCount := 0 }

/-- C5 witness: the in-domain evaluation equation at a concrete point. -/
theorem c5_witness :
    fimEvaluate evalState 5 2 3 5 2 true
      = 3 * evalState.normConstant
          * evalState.interpolator
              (fimTransform true evalState.oversampling.2 evalState.xOrigin 5 5)
              (fimTransform true evalState.oversampling.1 evalState.yOrigin 2 2)
    := by
  exact (c5_oversampling_transform evalState 5 2 3 5 2).2.2.2.2 true
    (by norm_num [fimTransform, evalState]) (by norm_num [fimTransform, evalState])
    (by norm_num [fimTransform, evalState]) (by norm_num [fimTransform, evalState])

/-- C6: whenever the fill value is not the pass-through sentinel, a query
whose transformed coordinate falls outside `[0, nx-1] × [0, ny-1]`
(`FittableImageModel`) or outside
`[0, (nx-1)/ox] × [0, (ny-1)/oy]` (`EPSFModel`) returns exactly the
configured fill value; with the sentinel (`None`), the surface's own
(extrapolated) value is returned. -/
theorem c6_out_of_domain_fill (s : ModelState) (x y fl x0 y0 : ℚ)
    (useOv : Bool) (fv : ℚ) :
    (s.fillValue = some fv →
      (fimTransform useOv s.oversampling.2 s.xOrigin x x0 < 0
        ∨ fimTransform useOv s.oversampling.2 s.xOrigin x x0 > (s.nx : ℚ) - 1
        ∨ fimTransform useOv s.oversampling.1 s.yOrigin y y0 < 0
        ∨ fimTransform useOv s.oversampling.1 s.yOrigin y y0
            > (s.ny : ℚ) - 1) →
      fimEvaluate s x y fl x0 y0 useOv = fv) ∧
    (s.fillValue = none →
      fimEvaluate s x y fl x0 y0 useOv
        = fl * s.normConstant
            * s.interpolator
                (fimTransform useOv s.oversampling.2 s.xOrigin x x0)
                (fimTransform useOv s.oversampling.1 s.yOrigin y y0)) ∧
    (s.fillValue = some fv →
      (x - x0 + s.xOrigin < 0
        ∨ x - x0 + s.xOrigin > ((s.nx : ℚ) - 1) / (s.oversampling.2 : ℚ)
        ∨ y - y0 + s.yOrigin < 0
        ∨ y - y0 + s.yOrigin > ((s.ny : ℚ) - 1) / (s.oversampling.1 : ℚ)) →
      epsfEvaluate s x y fl x0 y0 = fv) ∧
    (s.fillValue = none →
      epsfEvaluate s x y fl x0 y0
        = fl * s.interpolator (x - x0 + s.xOrigin) (y - y0 + s.yOrigin)) := by
  refine ⟨fun hf hout => ?_, fun hf => ?_, fun hf hout => ?_, fun hf => ?_⟩
  · unfold fimEvaluate
    rw [hf]
    simp only
    rw [if_pos hout]
  · unfold fimEvaluate
    rw [hf]
  · unfold epsfEvaluate
    rw [hf]
    simp only
    rw [if_pos hout]
  · unfold epsfEvaluate
    rw [hf]

/-- C6 witness: an out-of-domain query returns the configured fill value
for both variants at a concrete model. -/
theorem c6_witness :
    fimEvaluate evalState 100 0 1 0 0 true = 7 ∧
    epsfEvaluate evalState 100 0 1 0 0 = 7 := by
  have h := c6_out_of_domain_fill evalState 100 0 1 0 0 true 7
  exact ⟨h.1 rfl (by norm_num [fimTransform, evalState]),
    h.2.2.1 rfl (by norm_num [evalState])⟩

/-- C1 counterexample: for an `EPSFModel` normalized at construction
(raw flux 4, correction 1, grid rescaled to `[[1]]`), assigning
`normalization_correction = 2` divides the stored grid in place again
(`[[1]] → [[1/8]]`) — an observable state change beyond constant and flux —
and leaves `normalization_constant` at its old value `1` instead of
reflecting the new correction. -/
theorem c1_counterexample :
    epsfNormModel.data = [[1]] ∧
    (epsfSetNormCorrection testAper 2 epsfNormModel).data = [[1 / 8]] ∧
    (epsfSetNormCorrection testAper 2 epsfNormModel).normConstant = 1 := by
  norm_num [epsfNormModel, epsfInit, epsfInitialNorm, epsfComputeNormalization,
    epsfComputeRawImageNorm, epsfSetNormCorrection, testAper, testBuilder,
    gridSum, scaleData]
  simp

/-- C1 amended: for `FittableImageModel` (not `EPSFModel`), with strictly
positive old and new correction factors, the setter atomically stores the
new correction, rescales `flux` by `new/old`, recomputes the constant from
the cached raw flux without re-summing the grid (so it reflects the new
correction exactly when the status is Performed or NotRequested; a Failed
status keeps the fallback constant `1.0` and re-emits the warning), and
changes no other observable state. -/
theorem c1_correction_mutation_fim (s : ModelState) (newC : ℚ)
    (hold : 0 < s.normCorrection) (hnew : 0 < newC)
    (hperf : s.normStatus = .performed → ∃ v, s.imgNorm = some v ∧ v ≠ 0)
    (hfail : s.normStatus = .failed → s.imgNorm = some 0) :
    (fimSetNormCorrection newC s).normCorrection = newC ∧
    (fimSetNormCorrection newC s).flux = s.flux * (newC / s.normCorrection) ∧
    (fimSetNormCorrection newC s).rawNormCount = s.rawNormCount ∧
    (fimSetNormCorrection newC s).data = s.data ∧
    (fimSetNormCorrection newC s).imgNorm = s.imgNorm ∧
    (fimSetNormCorrection newC s).normStatus = s.normStatus ∧
    (fimSetNormCorrection newC s).xOrigin = s.xOrigin ∧
    (fimSetNormCorrection newC s).yOrigin = s.yOrigin ∧
    (fimSetNormCorrection newC s).fillValue = s.fillValue ∧
    (fimSetNormCorrection newC s).oversampling = s.oversampling ∧
    (fimSetNormCorrection newC s).interpolator = s.interpolator ∧
    (s.normStatus = .notRequested →
      (fimSetNormCorrection newC s).normConstant = 1 / newC) ∧
    (∀ v, s.normStatus = .performed → s.imgNorm = some v →
      (fimSetNormCorrection newC s).normConstant = 1 / (newC * v)) ∧
    (s.normStatus = .failed →
      (fimSetNormCorrection newC s).normConstant = 1) ∧
    (s.normStatus ≠ .failed →
      (fimSetNormCorrection newC s).warnCount = s.warnCount) := by
  rcases hs : s.normStatus with _ | _ | _
  · obtain ⟨v, hv, hvz⟩ := hperf hs
    simp [fimSetNormCorrection, computeNormalization, hs, hv, hvz, div_div]
    ring
  · have h0 := hfail hs
    simp [fimSetNormCorrection, computeNormalization, hs, h0]
  · simp [fimSetNormCorrection, computeNormalization, hs]

/-- C1 witness: the amended claim at a concrete Performed-state model with
corrections 1 → 3 and cached raw flux 2. -/
theorem c1_witness :
    (fimSetNormCorrection 3 cachedState).flux
      = cachedState.flux * (3 / cachedState.normCorrection) ∧
    (fimSetNormCorrection 3 cachedState).normConstant = 1 / (3 * 2) ∧
    (fimSetNormCorrection 3 cachedState).rawNormCount
      = cachedState.rawNormCount := by
  obtain ⟨a1, a2, a3, a4, a5, a6, a7, a8, a9, a10, a11, a12, a13, a14, a15⟩ :=
    c1_correction_mutation_fim cachedState 3 one_pos three_pos
      (fun _ => ⟨2, rfl, two_ne_zero⟩) (fun h => nomatch h)
  exact ⟨a2, a13 2 rfl rfl, a3⟩

/-- C4 counterexample: an `EPSFModel` constructed with `normalize=False`
(grid `[[4]]`, raw flux 4 cached at construction); the first manual
normalization rescales the grid to `[[1]]`, the second divides it again to
`[[1/4]]` — the two invocations do not leave the same observable state. -/
theorem c4_counterexample :
    epsfPlainModel.imgNorm = some 4 ∧
    (epsfComputeNormalization testAper true epsfPlainModel).data = [[1]] ∧
    (epsfComputeNormalization testAper true
        (epsfComputeNormalization testAper true epsfPlainModel)).data
      = [[1 / 4]] := by
  norm_num [epsfPlainModel, epsfInit, epsfInitialNorm,
    epsfComputeNormalization, epsfComputeRawImageNorm, testAper, testBuilder,
    gridSum, scaleData]

/-- C4 amended: for `FittableImageModel`, invoking the normalization
computation twice re-sums the grid at most once, the cached raw flux is
reused on the second invocation, and the second invocation reproduces the
state of the first (constant, data, cache, status, flux and sum count; in
the Failed case the warning is emitted again). For `EPSFModel` with a
cached raw flux, the cache is likewise reused (no re-integration) and the
constant is untouched, but each invocation divides the stored grid again,
so the second invocation does not reproduce the first's state. -/
theorem c4_idempotence (aper : Aper) (t s : ModelState) (v : ℚ)
    (hv : s.imgNorm = some v) (hvz : v ≠ 0) :
    ((computeNormalization true (computeNormalization true t)).normConstant
        = (computeNormalization true t).normConstant ∧
      (computeNormalization true (computeNormalization true t)).data
        = (computeNormalization true t).data ∧
      (computeNormalization true (computeNormalization true t)).imgNorm
        = (computeNormalization true t).imgNorm ∧
      (computeNormalization true (computeNormalization true t)).normStatus
        = (computeNormalization true t).normStatus ∧
      (computeNormalization true (computeNormalization true t)).flux
        = (computeNormalization true t).flux ∧
      (computeNormalization true (computeNormalization true t)).rawNormCount
        = (computeNormalization true t).rawNormCount) ∧
    ((computeNormalization true t).rawNormCount ≤ t.rawNormCount + 1) ∧
    (∀ w, t.imgNorm = some w →
      (computeNormalization true t).rawNormCount = t.rawNormCount) ∧
    ((epsfComputeNormalization aper true s).rawNormCount = s.rawNormCount ∧
      (epsfComputeNormalization aper true s).imgNorm = s.imgNorm ∧
      (epsfComputeNormalization aper true s).normConstant = s.normConstant ∧
      (epsfComputeNormalization aper true s).data
        = scaleData (1 / (v * s.normCorrection)) s.data ∧
      (epsfComputeNormalization aper true
          (epsfComputeNormalization aper true s)).data
        = scaleData (1 / (v * s.normCorrection))
            (scaleData (1 / (v * s.normCorrection)) s.data)) := by
  refine ⟨?_, ?_, ?_, ?_⟩
  · cases ht : t.imgNorm with
    | some w =>
      by_cases hw : w = 0 <;>
        simp [computeNormalization, computeRawImageNorm, ht, hw]
    | none =>
      by_cases hz : gridSum t.data = 0 <;>
        simp [computeNormalization, computeRawImageNorm, ht, hz]
  · cases ht : t.imgNorm with
    | some w =>
      by_cases hw : w = 0 <;>
        simp [computeNormalization, ht, hw]
    | none =>
      by_cases hz : gridSum t.data = 0 <;>
        simp [computeNormalization, computeRawImageNorm, ht, hz]
  · intro w hw
    by_cases hw0 : w = 0 <;> simp [computeNormalization, hw, hw0]
  · simp [epsfComputeNormalization, hv, hvz]

/-- C4 witness: the amended claim at a concrete cached state (raw flux 2,
correction 1). -/
theorem c4_witness :
    (computeNormalization true (computeNormalization true cachedState)).data
      = (computeNormalization true cachedState).data ∧
    (computeNormalization true cachedState).rawNormCount
      = cachedState.rawNormCount ∧
    (epsfComputeNormalization testAper true cachedState).data
      = scaleData (1 / (2 * cachedState.normCorrection)) cachedState.data := by
  obtain ⟨hfim, _, hcache, hepsf⟩ :=
    c4_idempotence testAper cachedState cachedState 2 rfl two_ne_zero
  exact ⟨hfim.2.1, hcache 2 rfl, hepsf.2.2.2.1⟩

theorem zeroGrid_length (ny nx : ℕ) : (zeroGrid ny nx).length = ny := by
  simp [zeroGrid]

theorem zeroGrid_headD (ny nx : ℕ) (h : 1 ≤ ny) :
    (zeroGrid ny nx).headD [] = List.replicate nx (0 : ℚ) := by
  cases ny with
  | zero => omega
  | succ k => rfl

theorem zeroGrid_any_ragged (ny nx : ℕ) :
    ((zeroGrid ny nx).any fun row => row.length != nx) = false := by
  simp [zeroGrid]

/-- C3 counterexample: an `EPSFModel` built from the all-zeros grid `[[0]]`
with `normalize=True` constructs successfully but ends with status
Performed (0), no warning, and raw flux short-circuited to 1 — not the
claimed Failed (1) status with a warning. -/
theorem c3_counterexample :
    (∃ u : ModelState,
      epsfInit testBuilder testAper [[0]] (some 1) 0 0 true 1 none (1, 1)
        (some 0) (11 / 2) = .ok u) ∧
    epsfZerosModel.normStatus = NormStatus.performed ∧
    epsfZerosModel.warnCount = 0 ∧
    epsfZerosModel.imgNorm = some 1 := by
  refine ⟨⟨epsfZerosModel, ?_⟩, ?_, ?_, ?_⟩ <;>
    norm_num [epsfZerosModel, epsfInit, epsfInitialNorm,
      epsfComputeNormalization, epsfComputeRawImageNorm, testAper,
      testBuilder, gridSum, scaleData]

/-- C3 amended: a `FittableImageModel` constructed from an all-zeros grid
with `normalize=True` completes without exception, warns once, ends with
status Failed and constant fallback `1.0` (the cached raw flux stays 0);
an `EPSFModel` on the same grid also completes without exception, but its
zero-sum check sets the raw flux to 1, performs the (no-op) in-place
normalization, ends with status Performed and emits no warning. -/
theorem c3_zero_grid (builder : Builder) (aper : Aper) (ny nx : ℕ)
    (hny : 1 ≤ ny) (hnx : 1 ≤ nx) (c : ℚ) (hc : 0 < c) (oy ox : ℕ)
    (hoy : 1 ≤ oy) (hox : 1 ≤ ox) (f : ℚ) (fv : Option ℚ) (nr : ℚ) :
    (∃ s : ModelState,
      fimInit builder (zeroGrid ny nx) (some f) 0 0 true c none (oy, ox) fv
        = .ok s ∧
      s.normStatus = .failed ∧ s.warnCount = 1 ∧ s.normConstant = 1 ∧
      s.imgNorm = some 0 ∧ s.flux = f) ∧
    (∃ t : ModelState,
      epsfInit builder aper (zeroGrid ny nx) (some f) 0 0 true c none
          (oy, ox) fv nr
        = .ok t ∧
      t.normStatus = .performed ∧ t.warnCount = 0 ∧ t.imgNorm = some 1 ∧
      t.data = zeroGrid ny nx ∧ t.rawNormCount = 0) := by
  have h1 : ¬(oy < 1) := by omega
  have h2 : ¬(ox < 1) := by omega
  have h3 : ¬(c ≤ 0) := not_le.mpr hc
  have h4 : ¬(ny * nx < 1) := by
    have := Nat.mul_pos hny hnx
    omega
  constructor
  · simp only [fimInit, fimInitialNorm, computeNormalization,
      computeRawImageNorm, zeroGrid_headD ny nx hny, List.length_replicate,
      zeroGrid_any_ragged, zeroGrid_length, gridSum_zeroGrid, h1, h2, h3, h4]
    simp [h1, h2, h3, h4]
  · simp only [epsfInit, epsfInitialNorm, epsfComputeNormalization,
      epsfComputeRawImageNorm, zeroGrid_headD ny nx hny,
      List.length_replicate, zeroGrid_any_ragged, zeroGrid_length,
      gridSum_zeroGrid, scaleData_zeroGrid, h1, h2, h3, h4]
    simp [h1, h2, h3, h4, scaleData_zeroGrid]

/-- C3 witness: the amended claim at `ny = nx = 1`, unit correction and
unit oversampling. -/
theorem c3_witness :
    (∃ s : ModelState,
      fimInit testBuilder (zeroGrid 1 1) (some 1) 0 0 true 1 none (1, 1)
          (some 0)
        = .ok s ∧
      s.normStatus = .failed ∧ s.warnCount = 1 ∧ s.normConstant = 1 ∧
      s.imgNorm = some 0 ∧ s.flux = 1) ∧
    (∃ t : ModelState,
      epsfInit testBuilder testAper (zeroGrid 1 1) (some 1) 0 0 true 1 none
          (1, 1) (some 0) (11 / 2)
        = .ok t ∧
      t.normStatus = .performed ∧ t.warnCount = 0 ∧ t.imgNorm = some 1 ∧
      t.data = zeroGrid 1 1 ∧ t.rawNormCount = 0) :=
  c3_zero_grid testBuilder testAper 1 1 (by decide) (by decide) 1 one_pos
    1 1 (by decide) (by decide) 1 (some 0) (11 / 2)

theorem computeNormalization_normCorrection (b : Bool) (t : ModelState) :
    (computeNormalization b t).normCorrection = t.normCorrection := by
  cases b <;> cases ht : t.imgNorm <;>
    simp [computeNormalization, ht] <;> split <;> rfl

/-- C9 counterexample: on a model constructed with correction 1, assigning
`normalization_correction = -1` raises no validation error — the mutation
goes through, the correction becomes -1 and `flux` is rescaled by `-1` —
instead of failing synchronously and leaving the state unchanged. -/
theorem c9_counterexample :
    fimPlainModel.normCorrection = 1 ∧
    (fimSetNormCorrection (-1) fimPlainModel).normCorrection = -1 ∧
    (fimSetNormCorrection (-1) fimPlainModel).flux = -1 := by
  norm_num [fimPlainModel, fimInit, fimInitialNorm, computeNormalization,
    computeRawImageNorm, fimSetNormCorrection, testBuilder, gridSum]

/-- C9 amended: construction rejects a non-positive correction factor with
a synchronous validation error, but the post-construction setter performs
no such validation — any new value, positive or not, is stored and the
constant and flux are recomputed from it. -/
theorem c9_setter_unvalidated (builder : Builder) (data : List (List ℚ))
    (fl : Option ℚ) (x0 y0 : ℚ) (nrm : Bool) (c : ℚ) (hc : c ≤ 0)
    (origin : Option (ℚ × ℚ)) (oy ox : ℕ) (hoy : 1 ≤ oy) (hox : 1 ≤ ox)
    (fv : Option ℚ) (s : ModelState) (newC : ℚ) :
    fimInit builder data fl x0 y0 nrm c origin (oy, ox) fv
      = .error "normalization_correction must be strictly positive." ∧
    (fimSetNormCorrection newC s).normCorrection = newC := by
  constructor
  · have h1 : ¬(oy < 1) := by omega
    have h2 : ¬(ox < 1) := by omega
    simp [fimInit, h1, h2, hc]
  · simp [fimSetNormCorrection, computeNormalization_normCorrection]

/-- C9 witness: the amended claim at a concrete invalid correction `-1`
and a concrete mutation to `5`. -/
theorem c9_witness :
    fimInit testBuilder [[2]] (some 1) 0 0 false (-1) none (1, 1) (some 0)
      = .error "normalization_correction must be strictly positive." ∧
    (fimSetNormCorrection 5 cachedState).normCorrection = 5 := by
  have h := c9_setter_unvalidated testBuilder [[2]] (some 1) 0 0 false (-1)
    (by norm_num) none 1 1 (by decide) (by decide) (some 0) cachedState 5
  exact ⟨h.1, h.2⟩

/-- C10: `EPSFModel.evaluate` returns exactly
`flux * surface(x - x_0 + x_origin, y - y_0 + y_origin)` with no
normalization-constant factor, so for two `EPSFModel`s constructed with
`normalize=False` that differ only in `normalization_correction` the
evaluation output is identical; `FittableImageModel.evaluate` always
scales the surface value by `flux * normalization_constant`. -/
theorem c10_epsf_ignores_constant (builder : Builder) (aper : Aper)
    (data : List (List ℚ)) (fl : Option ℚ) (x0 y0 : ℚ) (c1 c2 : ℚ)
    (origin : Option (ℚ × ℚ)) (ov : ℕ × ℕ) (fv : Option ℚ) (nr : ℚ)
    (s1 s2 : ModelState)
    (h1 : epsfInit builder aper data fl x0 y0 false c1 origin ov fv nr
        = .ok s1)
    (h2 : epsfInit builder aper data fl x0 y0 false c2 origin ov fv nr
        = .ok s2) :
    (∀ t : ModelState, t.fillValue = none → ∀ x y f a b : ℚ,
      epsfEvaluate t x y f a b
        = f * t.interpolator (x - a + t.xOrigin) (y - b + t.yOrigin)) ∧
    (∀ x y f a b : ℚ, epsfEvaluate s1 x y f a b = epsfEvaluate s2 x y f a b) ∧
    (∀ t : ModelState, t.fillValue = none → ∀ (x y f a b : ℚ)
        (useOv : Bool),
      fimEvaluate t x y f a b useOv
        = f * t.normConstant
            * t.interpolator
                (fimTransform useOv t.oversampling.2 t.xOrigin x a)
                (fimTransform useOv t.oversampling.1 t.yOrigin y b)) := by
  refine ⟨?_, ?_, ?_⟩
  · intro t ht x y f a b
    unfold epsfEvaluate
    rw [ht]
  · simp only [epsfInit] at h1 h2
    by_cases hov : ov.1 < 1 ∨ ov.2 < 1
    · rw [if_pos hov] at h1
      exact Except.noConfusion h1
    rw [if_neg hov] at h1 h2
    by_cases hq1 : c1 ≤ 0
    · rw [if_pos hq1] at h1
      exact Except.noConfusion h1
    rw [if_neg hq1] at h1
    by_cases hq2 : c2 ≤ 0
    · rw [if_pos hq2] at h2
      exact Except.noConfusion h2
    rw [if_neg hq2] at h2
    by_cases hrag :
        (data.any fun row => row.length != (data.headD []).length) = true
    · rw [if_pos hrag] at h1
      exact Except.noConfusion h1
    rw [if_neg hrag] at h1 h2
    by_cases hsz : data.length * (data.headD []).length < 1
    · rw [if_pos hsz] at h1
      exact Except.noConfusion h1
    rw [if_neg hsz] at h1 h2
    injection h1 with h1
    injection h2 with h2
    subst h1
    subst h2
    intro x y f a b
    cases fl <;>
      simp [epsfEvaluate, epsfInitialNorm, epsfComputeRawImageNorm]
  · intro t ht x y f a b useOv
    unfold fimEvaluate
    rw [ht]

/-- C10 witness: two concrete `EPSFModel`s with corrections 1 and 2
evaluate identically. -/
theorem c10_witness :
    epsfEvaluate epsfPlainModel 0 0 5 0 0
      = epsfEvaluate epsfPlainModel2 0 0 5 0 0 := by
  have hi1 : epsfInit testBuilder testAper [[4]] (some 1) 0 0 false 1 none
      (1, 1) (some 0) (11 / 2) = .ok epsfPlainModel := by
    norm_num [epsfPlainModel, epsfInit, epsfInitialNorm,
      epsfComputeNormalization, epsfComputeRawImageNorm, testAper,
      testBuilder, gridSum, scaleData]
  have hi2 : epsfInit testBuilder testAper [[4]] (some 1) 0 0 false 2 none
      (1, 1) (some 0) (11 / 2) = .ok epsfPlainModel2 := by
    norm_num [epsfPlainModel2, epsfInit, epsfInitialNorm,
      epsfComputeNormalization, epsfComputeRawImageNorm, testAper,
      testBuilder, gridSum, scaleData]
  exact (c10_epsf_ignores_constant testBuilder testAper [[4]] (some 1) 0 0
    1 2 none (1, 1) (some 0) (11 / 2) epsfPlainModel epsfPlainModel2
    hi1 hi2).2.1 0 0 5 0 0
